import Mathlib

/-!
Verification development for `src/module_1/module_1_meteo_api.py`:
a weather-archive ETL script (fetch with retry/backoff, schema validation,
monthly aggregation, driver).  Python values that matter to the claims are
modelled shallowly: JSON dictionaries become association lists, machine
floats become exact rationals (`ℚ`), the external HTTP world becomes an
oracle `Nat → HttpEvent` giving the outcome of the k-th `requests.get` call,
and `time.sleep` becomes a recorded trace of requested sleep durations.
-/

/-- A Python/JSON value, as far as the script inspects one: numbers,
strings, arrays and string-keyed dictionaries (association lists; lookup
returns the first binding, matching dict semantics where keys are unique). -/
inductive PyVal where
  | num (q : ℚ)
  | str (s : String)
  | arr (xs : List PyVal)
  | dict (entries : List (String × PyVal))

/-- Digits-only numeral value; `none` when the character list is empty or
contains a non-digit.  Helper for modelling Python `int(...)` and date
parsing. -/
def digitsToNat (cs : List Char) : Option Nat :=
  if cs ≠ [] ∧ cs.all Char.isDigit then
    some (cs.foldl (fun a c => 10 * a + (c.toNat - 48)) 0)
  else none

/-- Strip leading and trailing whitespace from a character list. -/
def trimChars (cs : List Char) : List Char :=
  ((cs.dropWhile Char.isWhitespace).reverse.dropWhile Char.isWhitespace).reverse

/-- Model of Python `int(s)` on a string: surrounding whitespace is
stripped, an optional single sign is allowed, the rest must be digits;
otherwise `int` raises `ValueError`, modelled as `none`. -/
def pyInt (s : String) : Option Int :=
  match trimChars s.data with
  | [] => none
  | c :: cs =>
    if c = '+' then (digitsToNat cs).map (fun n => (n : Int))
    else if c = '-' then (digitsToNat cs).map (fun n => -(n : Int))
    else (digitsToNat (c :: cs)).map (fun n => (n : Int))

/-- Model of `int(response.headers.get("Retry-After", 10))`: an absent
header yields the integer default `10`; a present header is a string fed to
`int`, whose failure (`none`) models the uncaught `ValueError`. -/
def parseRetryAfter : Option String → Option Int
  | none => some 10
  | some s => pyInt s

/-- Outcome of one `requests.get` call, as seen by the retry loop: either a
response (status code, optional `Retry-After` header, parsed JSON body) or a
network-level `RequestException` (connection error, timeout, DNS failure). -/
inductive HttpEvent where
  | resp (status : Nat) (retryAfter : Option String) (body : List (String × PyVal))
  | netErr

/-- How a run of the `fetch_api_data` loop ends.
`ok`: `return response.json()` on a 200.
`maxRetriesExceeded`: the `raise Exception(f"Max retries ... exceeded.")`
inside the `except` clause.
`failedAfterRetries`: the `raise Exception(f"API request failed after ...")`
after the `while` loop exits.
`valueError`: an uncaught `ValueError` escaping the loop (from `int()` on a
bad `Retry-After` header, or from `time.sleep` on a negative duration).
`outOfFuel`: modelling artifact marking that the loop did not finish within
the given fuel (used to exhibit genuine non-termination). -/
inductive FetchOutcome where
  | ok (body : List (String × PyVal))
  | maxRetriesExceeded
  | failedAfterRetries
  | valueError
  | outOfFuel

/-- Observable result of a `fetch_api_data` run: how it ended, the trace of
`time.sleep` durations (in seconds, in order), and how many HTTP requests
(`requests.get` calls) were issued. -/
structure FetchRes where
  outcome : FetchOutcome
  sleeps : List ℚ
  reqs : Nat

/-- One-to-one model of the `while retries < max_retries` loop of
`fetch_api_data`.  State: remaining `fuel` (upper bound on loop-body
executions, a modelling artifact), the Python `retries` counter, and the
index `k` of the next HTTP request in the event oracle.  Branches follow
the source line by line:
* status 200: return the body;
* status 429: `int()` the `Retry-After` header (uncaught `ValueError` on
  failure), `time.sleep(retry_after * backoff_factor)` (`ValueError` if the
  duration is negative), `retries += 1`, loop;
* any other status: `response.raise_for_status()` raises `HTTPError` only
  for 400 ≤ status < 600; that `HTTPError` is a `RequestException`, hence
  caught by the `except` clause below; statuses outside 400–599 raise
  nothing, so the loop immediately re-issues the request with `retries`
  unchanged;
* `except RequestException` (network error or `HTTPError`): `retries += 1`;
  if `retries < max_retries`, `time.sleep(backoff_factor * 2 ** retries)`
  and loop, else raise "Max retries exceeded". -/
def fetchGo (backoff : ℚ) (maxRetries : Nat) (events : Nat → HttpEvent) :
    Nat → Nat → Nat → FetchRes
  | 0, retries, _ =>
    if retries < maxRetries then { outcome := .outOfFuel, sleeps := [], reqs := 0 }
    else { outcome := .failedAfterRetries, sleeps := [], reqs := 0 }
  | fuel + 1, retries, k =>
    if retries < maxRetries then
      match events k with
      | .resp s ra body =>
        if s = 200 then { outcome := .ok body, sleeps := [], reqs := 1 }
        else if s = 429 then
          match parseRetryAfter ra with
          | none => { outcome := .valueError, sleeps := [], reqs := 1 }
          | some n =>
            let d := (n : ℚ) * backoff
            if d < 0 then { outcome := .valueError, sleeps := [], reqs := 1 }
            else
              let rest := fetchGo backoff maxRetries events fuel (retries + 1) (k + 1)
              { outcome := rest.outcome, sleeps := d :: rest.sleeps, reqs := rest.reqs + 1 }
        else if 400 ≤ s ∧ s < 600 then
          if retries + 1 < maxRetries then
            let d := backoff * 2 ^ (retries + 1)
            if d < 0 then { outcome := .valueError, sleeps := [], reqs := 1 }
            else
              let rest := fetchGo backoff maxRetries events fuel (retries + 1) (k + 1)
              { outcome := rest.outcome, sleeps := d :: rest.sleeps, reqs := rest.reqs + 1 }
          else { outcome := .maxRetriesExceeded, sleeps := [], reqs := 1 }
        else
          let rest := fetchGo backoff maxRetries events fuel retries (k + 1)
          { outcome := rest.outcome, sleeps := rest.sleeps, reqs := rest.reqs + 1 }
      | .netErr =>
        if retries + 1 < maxRetries then
          let d := backoff * 2 ^ (retries + 1)
          if d < 0 then { outcome := .valueError, sleeps := [], reqs := 1 }
          else
            let rest := fetchGo backoff maxRetries events fuel (retries + 1) (k + 1)
            { outcome := rest.outcome, sleeps := d :: rest.sleeps, reqs := rest.reqs + 1 }
        else { outcome := .maxRetriesExceeded, sleeps := [], reqs := 1 }
    else { outcome := .failedAfterRetries, sleeps := [], reqs := 0 }

/-- Model of `fetch_api_data(url, params, max_retries, backoff_factor)`.
The URL and query parameters do not influence the loop's control flow; the
world's replies are the event oracle.  Fuel `maxRetries` is exactly enough
for every run in which each reply is recognised by the loop (status 200,
429, 400–599, or a network error), since each such loop-body execution
either terminates the call or increments `retries`.  Replies the loop
ignores (e.g. status 204) make the real loop spin forever; that shows up
here as `outcome = .outOfFuel` (see `FetchTerminates`). -/
def fetch_api_data (backoff : ℚ) (maxRetries : Nat) (events : Nat → HttpEvent) : FetchRes :=
  fetchGo backoff maxRetries events maxRetries 0 0

/-- The retry loop of `fetch_api_data`, started in its initial state,
finishes within some finite number of loop-body executions. -/
def FetchTerminates (backoff : ℚ) (maxRetries : Nat) (events : Nat → HttpEvent) : Prop :=
  ∃ fuel, (fetchGo backoff maxRetries events fuel 0 0).outcome ≠ FetchOutcome.outOfFuel

/-- The module-level `VARIABLES` constant: the daily variables requested
from the API. -/
def VARIABLES : List String :=
  ["temperature_2m_mean", "precipitation_sum", "wind_speed_10m_max"]

/-- The `required_keys` list of `validate_response_schema`, in source
order. -/
def required_keys : List String :=
  ["daily", "daily_units", "latitude", "longitude", "generationtime_ms"]

/-- A Python error value, as far as the driver distinguishes them:
`ValueError(msg)`, `TypeError`, or a generic `Exception(msg)`. -/
inductive PyErr where
  | valueError (msg : String)
  | typeError (msg : String)
  | exception (msg : String)
deriving DecidableEq, Repr

/-- First key of `keys` that is absent from the dictionary `d` (the key the
first `for` loop of `validate_response_schema` raises on), `none` when all
are present. -/
def firstMissingKey (keys : List String) (d : List (String × PyVal)) : Option String :=
  match keys with
  | [] => none
  | key :: rest =>
    if (d.lookup key).isSome then firstMissingKey rest d else some key

/-- `startsWithChars p t`: the character list `p` is a prefix of `t`. -/
def startsWithChars : List Char → List Char → Bool
  | [], _ => true
  | _ :: _, [] => false
  | a :: as, b :: bs => a = b && startsWithChars as bs

/-- `containsChars p t`: the character list `p` occurs contiguously in `t`
(Python substring containment). -/
def containsChars (p : List Char) : List Char → Bool
  | [] => startsWithChars p []
  | b :: bs => startsWithChars p (b :: bs) || containsChars p bs

/-- Model of the Python membership test `k in v` for a string `k`:
dictionary key lookup, list element equality (only an equal string matches),
substring test on strings; `none` models the `TypeError` Python raises when
`v` is not a container (e.g. a number). -/
def pyContains (v : PyVal) (k : String) : Option Bool :=
  match v with
  | .dict es => some (es.lookup k).isSome
  | .arr xs => some (xs.any (fun x => match x with | .str t => t = k | _ => false))
  | .str t => some (containsChars k.data t.data)
  | .num _ => none

/-- The second `for` loop of `validate_response_schema`: for each variable
in order, evaluate `var not in daily` (a `TypeError` if `daily` is not a
container) and raise `ValueError` naming the first missing variable. -/
def checkVars : List String → PyVal → Except PyErr Unit
  | [], _ => Except.ok ()
  | v :: rest, daily =>
    match pyContains daily v with
    | none => Except.error (PyErr.typeError "argument is not iterable")
    | some true => checkVars rest daily
    | some false =>
      Except.error (PyErr.valueError
        ("Invalid API response: missing variable " ++ v ++ " in daily data"))

/-- First variable on which `checkVars` would raise the missing-variable
`ValueError`: the first one whose membership test is `some false`, provided
no earlier test raised `TypeError`. -/
def firstFailingVar : List String → PyVal → Option String
  | [], _ => none
  | v :: rest, daily =>
    match pyContains daily v with
    | none => none
    | some true => firstFailingVar rest daily
    | some false => some v

/-- Model of `validate_response_schema(response)`: check the five required
top-level keys in order, raising `ValueError` naming the first missing one;
then read `response['daily']` and check each of `VARIABLES + ['time']` for
membership in it, raising `ValueError` naming the first missing variable.
No type or length checking is performed.  The function is pure: it only
reads `response`.  (The inner `none` branch is unreachable: `"daily"` is
among `required_keys`, so the first loop already raised if it is absent.) -/
def validate_response_schema (response : List (String × PyVal)) : Except PyErr Unit :=
  match firstMissingKey required_keys response with
  | some key =>
    Except.error (PyErr.valueError ("Invalid API response: missing key " ++ key))
  | none =>
    match response.lookup "daily" with
    | none => Except.error (PyErr.typeError "unreachable")
    | some daily => checkVars (VARIABLES ++ ["time"]) daily

/-- A calendar date, the result of parsing an entry of `daily.time`. -/
structure Date where
  year : Nat
  month : Nat
  day : Nat
deriving DecidableEq, Repr

/-- Split a character list at dashes (the `-` separators of an ISO date). -/
def splitDash : List Char → List (List Char)
  | [] => [[]]
  | c :: cs =>
    if c = '-' then [] :: splitDash cs
    else
      match splitDash cs with
      | g :: gs => (c :: g) :: gs
      | [] => [[c]]

/-- Model of `pd.to_datetime` on one ISO `"YYYY-MM-DD"` string (the format
the archive API returns): split on dashes, each part a numeral, with basic
range checks; `none` models a parse error. -/
def parseDate (s : String) : Option Date :=
  match splitDash s.data with
  | [ys, ms, ds] =>
    match digitsToNat ys, digitsToNat ms, digitsToNat ds with
    | some y, some m, some d =>
      if 1 ≤ m ∧ m ≤ 12 ∧ 1 ≤ d ∧ d ≤ 31 then some { year := y, month := m, day := d }
      else none
    | _, _, _ => none
  | _ => none

/-- `pd.to_datetime` mapped over the whole `time` column; any single parse
error fails the construction. -/
def parseDates : List String → Option (List Date)
  | [] => some []
  | s :: rest =>
    match parseDate s, parseDates rest with
    | some d, some ds => some (d :: ds)
    | _, _ => none

/-- One row of the monthly table built by `process_daily_data`: the
month-end index (kept as year and month), the three aggregated columns, and
the constant `city` column. -/
structure MonthlyRow where
  year : Nat
  month : Nat
  temperature : ℚ
  precipitation : ℚ
  wind_speed : ℚ
  city : String
deriving DecidableEq, Repr

/-- One row of the daily table: parsed date and the three variables. -/
structure DailyRow where
  date : Date
  temperature : ℚ
  precipitation : ℚ
  wind_speed : ℚ
deriving DecidableEq, Repr

/-- Align the four columns into rows (the `pd.DataFrame({...})`
construction; the caller has already checked that lengths agree). -/
def zipRows : List Date → List ℚ → List ℚ → List ℚ → List DailyRow
  | d :: ds, t :: ts, p :: ps, w :: ws =>
    { date := d, temperature := t, precipitation := p, wind_speed := w } ::
      zipRows ds ts ps ws
  | _, _, _, _ => []

/-- Arithmetic mean of a column (`.mean()` over one resample bucket). -/
def meanQ (xs : List ℚ) : ℚ := xs.sum / xs.length

/-- Maximum of a nonempty column (`.max()` over one resample bucket);
`0` on the empty list, which no bucket is. -/
def maxQ : List ℚ → ℚ
  | [] => 0
  | x :: xs => xs.foldl max x

/-- Chronological order on (year, month) pairs, used to order the resampled
buckets as `pandas` does. -/
def monthLE (a b : Nat × Nat) : Prop :=
  a.1 < b.1 ∨ (a.1 = b.1 ∧ a.2 ≤ b.2)

instance : DecidableRel monthLE := fun a b => by
  unfold monthLE; infer_instance

/-- Model of the `resample('ME')` block: bucket the daily rows by calendar
month, and for each month present (in chronological order) emit one row
with the mean temperature, total precipitation and maximum wind speed of
that month's rows, stamped with the city name.  (Months inside the range
with no observations, which `pandas` would emit as NaN/0 rows, are omitted:
NaN is a float artifact outside this model, and no claim concerns them.) -/
def resampleMonthly (rows : List DailyRow) (city : String) : List MonthlyRow :=
  let months :=
    List.insertionSort monthLE (rows.map (fun r => (r.date.year, r.date.month))).dedup
  months.map (fun ym =>
    let sel := rows.filter (fun r => (r.date.year, r.date.month) = ym)
    { year := ym.1, month := ym.2,
      temperature := meanQ (sel.map DailyRow.temperature),
      precipitation := (sel.map DailyRow.precipitation).sum,
      wind_speed := maxQ (sel.map DailyRow.wind_speed),
      city := city })

/-- Read an array of strings out of a `PyVal` (the `time` column). -/
def asStrList : PyVal → Option (List String)
  | .arr xs =>
    xs.foldr (fun x acc =>
      match x, acc with
      | .str s, some ss => some (s :: ss)
      | _, _ => none) (some [])
  | _ => none

/-- Read an array of numbers out of a `PyVal` (a variable column). -/
def asNumList : PyVal → Option (List ℚ)
  | .arr xs =>
    xs.foldr (fun x acc =>
      match x, acc with
      | .num q, some qs => some (q :: qs)
      | _, _ => none) (some [])
  | _ => none

/-- Model of `process_daily_data(response, city)`: read
`response['daily']` and its four arrays, build the daily table (columns
must exist, be well-typed arrays of equal length, and every `time` entry
must parse — `pandas` raises otherwise, modelled as `none`), then resample
to one row per calendar month (mean temperature, precipitation sum, wind
speed max) stamped with the city name. -/
def process_daily_data (response : List (String × PyVal)) (city : String) :
    Option (List MonthlyRow) :=
  match response.lookup "daily" with
  | some (PyVal.dict daily) =>
    match daily.lookup "time", daily.lookup "temperature_2m_mean",
        daily.lookup "precipitation_sum", daily.lookup "wind_speed_10m_max" with
    | some tv, some av, some pv, some wv =>
      match asStrList tv, asNumList av, asNumList pv, asNumList wv with
      | some times, some temps, some precs, some winds =>
        if temps.length = times.length ∧ precs.length = times.length ∧
            winds.length = times.length then
          match parseDates times with
          | some dates => some (resampleMonthly (zipRows dates temps precs winds) city)
          | none => none
        else none
      | _, _, _, _ => none
    | _, _, _, _ => none
  | _ => none

/-- The module-level `COORDINATES` registry: city name to latitude and
longitude. -/
def COORDINATES : List (String × ℚ × ℚ) :=
  [("Madrid", (40.416775, -3.703790)),
   ("London", (51.507351, -0.127758)),
   ("Rio", (-22.906847, -43.172896))]

/-- The query-parameter record `get_data_meteo_api` builds per city. -/
structure QueryParams where
  latitude : ℚ
  longitude : ℚ
  start_date : String
  end_date : String
  daily : String
deriving DecidableEq, Repr

/-- Result of a pipeline stage as the driver sees it: a value, a raised
Python error, or non-termination (the fetch loop spinning forever). -/
inductive PipeResult (α : Type) where
  | ok (a : α)
  | err (e : PyErr)
  | hang
deriving DecidableEq, Repr

/-- Messages of the two `Exception`s `fetch_api_data` can raise, and the
`ValueError` conversion, mapped from the loop outcome.  (`.ok` and
`.outOfFuel` are handled by the caller.) -/
def fetchErr (maxRetries : Nat) : FetchOutcome → PyErr
  | .maxRetriesExceeded =>
    PyErr.exception ("Max retries (" ++ toString maxRetries ++ ") exceeded.")
  | .failedAfterRetries =>
    PyErr.exception ("API request failed after " ++ toString maxRetries ++ " retries.")
  | .valueError => PyErr.valueError "invalid literal for int() with base 10"
  | _ => PyErr.exception "unreachable"

/-- Model of `get_data_meteo_api(city)`: look the city up in
`COORDINATES`, raising `ValueError` if absent (and in that case issuing no
HTTP request — the returned `Nat` counts `requests.get` calls); otherwise
build the query parameters, call `fetch_api_data` with the default
`max_retries = 3` and `backoff_factor = 1.0`, validate the response schema,
and return the validated response.  Any raised error propagates. -/
def get_data_meteo_api (events : Nat → HttpEvent) (city : String) :
    PipeResult (List (String × PyVal)) × Nat :=
  match COORDINATES.lookup city with
  | none =>
    (PipeResult.err (PyErr.valueError ("City " ++ city ++ " not found in COORDINATES")), 0)
  | some coords =>
    let _params : QueryParams :=
      { latitude := coords.1, longitude := coords.2,
        start_date := "2010-01-01", end_date := "2020-12-31",
        daily := String.intercalate "," VARIABLES }
    let r := fetch_api_data 1 3 events
    match r.outcome with
    | FetchOutcome.ok body =>
      match validate_response_schema body with
      | Except.ok _ => (PipeResult.ok body, r.reqs)
      | Except.error e => (PipeResult.err e, r.reqs)
    | FetchOutcome.outOfFuel => (PipeResult.hang, r.reqs)
    | o => (PipeResult.err (fetchErr 3 o), r.reqs)

/-- One iteration of the driver's `for city in cities` body: fetch and
validate, then aggregate.  Aggregation failures surface as the generic
table-construction error. -/
def runCity (events : Nat → HttpEvent) (city : String) : PipeResult (List MonthlyRow) :=
  match get_data_meteo_api events city with
  | (PipeResult.ok body, _) =>
    match process_daily_data body city with
    | some rows => PipeResult.ok rows
    | none => PipeResult.err (PyErr.exception "error constructing monthly table")
  | (PipeResult.err e, _) => PipeResult.err e
  | (PipeResult.hang, _) => PipeResult.hang

/-- `true` exactly on `PipeResult.err`. -/
def isErr {α : Type} : PipeResult α → Bool
  | PipeResult.err _ => true
  | _ => false

/-- The driver's per-city loop with the `all_data` accumulator: a raised
error is caught, logged and skipped (`except Exception ... continue`); a
success appends the city's monthly table; after the loop,
`pd.concat(all_data)` raises `ValueError("No objects to concatenate")` when
no city succeeded, and otherwise the concatenated table goes to the
plotter.  `w i` is the event oracle the i-th city's fetch consumes. -/
def mainLoop (w : Nat → Nat → HttpEvent) :
    List (Nat × String) → List (List MonthlyRow) → PipeResult (List MonthlyRow)
  | [], acc =>
    if acc.isEmpty then PipeResult.err (PyErr.valueError "No objects to concatenate")
    else PipeResult.ok acc.flatten
  | (i, c) :: rest, acc =>
    match runCity (w i) c with
    | PipeResult.ok rows => mainLoop w rest (acc ++ [rows])
    | PipeResult.err _ => mainLoop w rest acc
    | PipeResult.hang => PipeResult.hang

/-- Model of `main()` (named `main_driver` because Lean reserves `main`):
iterate the registry's cities in order, collecting the monthly tables of
the cities that succeed, then concatenate. -/
def main_driver (w : Nat → Nat → HttpEvent) : PipeResult (List MonthlyRow) :=
  mainLoop w (COORDINATES.map Prod.fst).enum []

/-- Concrete world: every request gets a 200 response with an empty body. -/
def ev200 : Nat → HttpEvent := fun _ => HttpEvent.resp 200 none []

/-- Concrete world: every request gets a 429 with no `Retry-After` header. -/
def ev429noHeader : Nat → HttpEvent := fun _ => HttpEvent.resp 429 none []

/-- Concrete world: every request gets a 429 whose `Retry-After` header is
the non-numeric string `"abc"`. -/
def ev429badHeader : Nat → HttpEvent := fun _ => HttpEvent.resp 429 (some "abc") []

/-- Concrete world: every request gets a 204 No Content response. -/
def ev204 : Nat → HttpEvent := fun _ => HttpEvent.resp 204 none []

/-- Concrete world: the first request gets a 500, every later one a 200. -/
def ev500then200 : Nat → HttpEvent :=
  fun k => if k = 0 then HttpEvent.resp 500 none [] else HttpEvent.resp 200 none []

/-- Concrete world: every request fails with a network-level error. -/
def evNetErr : Nat → HttpEvent := fun _ => HttpEvent.netErr

/-- Concrete world for the driver: every city's every request fails with a
network-level error. -/
def wAllNetErr : Nat → Nat → HttpEvent := fun _ _ => HttpEvent.netErr

/-- A schema-complete response whose daily arrays are all empty. -/
def goodResponse : List (String × PyVal) :=
  [("latitude", PyVal.num 40.416775), ("longitude", PyVal.num (-3.703790)),
   ("generationtime_ms", PyVal.num 1),
   ("daily", PyVal.dict
     [("time", PyVal.arr []), ("temperature_2m_mean", PyVal.arr []),
      ("precipitation_sum", PyVal.arr []), ("wind_speed_10m_max", PyVal.arr [])]),
   ("daily_units", PyVal.dict [])]

/-- A response missing the `daily_units` top-level key (the first missing
one in checking order). -/
def respMissingUnits : List (String × PyVal) :=
  [("latitude", PyVal.num 40.416775), ("generationtime_ms", PyVal.num 1),
   ("daily", PyVal.dict [])]

/-- The mocked Madrid response of the end-to-end scenario: two consecutive
January 2010 days with temperatures 10.0/12.0, precipitation 5.0/0.0, wind
3.0/4.0. -/
def madridResponse : List (String × PyVal) :=
  [("latitude", PyVal.num 40.416775), ("longitude", PyVal.num (-3.703790)),
   ("generationtime_ms", PyVal.num 1), ("daily_units", PyVal.dict []),
   ("daily", PyVal.dict
     [("time", PyVal.arr [PyVal.str "2010-01-01", PyVal.str "2010-01-02"]),
      ("temperature_2m_mean", PyVal.arr [PyVal.num 10, PyVal.num 12]),
      ("precipitation_sum", PyVal.arr [PyVal.num 5, PyVal.num 0]),
      ("wind_speed_10m_max", PyVal.arr [PyVal.num 3, PyVal.num 4])])]

/-- C8: a call to `fetch_api_data` whose first HTTP request returns status
200 returns the parsed JSON body immediately: no sleep is performed and no
further request is issued. -/
theorem C8_success_immediate (backoff : ℚ) (maxRetries : Nat)
    (events : Nat → HttpEvent) (ra : Option String) (body : List (String × PyVal))
    (hev : events 0 = HttpEvent.resp 200 ra body) (hm : 0 < maxRetries) :
    fetch_api_data backoff maxRetries events =
      { outcome := FetchOutcome.ok body, sleeps := [], reqs := 1 } := by
  obtain ⟨m, rfl⟩ : ∃ m, maxRetries = m + 1 := ⟨maxRetries - 1, by omega⟩
  unfold fetch_api_data
  simp [fetchGo, hev]

/-- Witness for C8 at a concrete input. -/
theorem C8_witness :
    fetch_api_data 1 3 ev200 =
      { outcome := FetchOutcome.ok [], sleeps := [], reqs := 1 } :=
  C8_success_immediate 1 3 ev200 none [] rfl (by decide)

/-- C10: a 429 response whose `Retry-After` header is present but not
parseable as an integer makes `int()` raise a `ValueError` that escapes the
retry machinery: the call ends with that uncaught error after a single
request, with no sleep, no retry, and no max-retries failure. -/
theorem C10_unparseable_retry_after (backoff : ℚ) (maxRetries : Nat)
    (events : Nat → HttpEvent) (s : String) (body : List (String × PyVal))
    (hev : events 0 = HttpEvent.resp 429 (some s) body)
    (hs : pyInt s = none) (hm : 0 < maxRetries) :
    fetch_api_data backoff maxRetries events =
      { outcome := FetchOutcome.valueError, sleeps := [], reqs := 1 } := by
  obtain ⟨m, rfl⟩ : ∃ m, maxRetries = m + 1 := ⟨maxRetries - 1, by omega⟩
  unfold fetch_api_data
  simp [fetchGo, hev, parseRetryAfter, hs]

/-- Witness for C10 at a concrete input. -/
theorem C10_witness :
    fetch_api_data 1 3 ev429badHeader =
      { outcome := FetchOutcome.valueError, sleeps := [], reqs := 1 } :=
  C10_unparseable_retry_after 1 3 ev429badHeader "abc" [] rfl (by decide) (by decide)

/-- C2: when the attempt made with `retries` prior failures (i.e. attempt
number `retries + 1`, counting the first attempt as 1) fails with a
network-level error, the loop increments the counter; if attempts remain it
sleeps exactly `backoff_factor * 2 ^ (retries + 1)` seconds — the spec's
`backoff_factor * 2^attempt` — before retrying, and if the budget is
exhausted it raises the "Max retries exceeded" error without sleeping. -/
theorem C2_network_error_backoff (backoff : ℚ) (maxRetries fuel retries k : Nat)
    (events : Nat → HttpEvent)
    (hev : events k = HttpEvent.netErr)
    (hr : retries < maxRetries) (hb : 0 ≤ backoff) :
    (retries + 1 < maxRetries →
      fetchGo backoff maxRetries events (fuel + 1) retries k =
        { outcome := (fetchGo backoff maxRetries events fuel (retries + 1) (k + 1)).outcome,
          sleeps := backoff * 2 ^ (retries + 1) ::
            (fetchGo backoff maxRetries events fuel (retries + 1) (k + 1)).sleeps,
          reqs := (fetchGo backoff maxRetries events fuel (retries + 1) (k + 1)).reqs + 1 }) ∧
    (maxRetries ≤ retries + 1 →
      fetchGo backoff maxRetries events (fuel + 1) retries k =
        { outcome := FetchOutcome.maxRetriesExceeded, sleeps := [], reqs := 1 }) := by
  have hd : ¬ backoff * 2 ^ (retries + 1) < 0 :=
    not_lt.mpr (mul_nonneg hb (by positivity))
  constructor
  · intro h2
    simp [fetchGo, hev, hr, h2, hd]
  · intro h2
    simp [fetchGo, hev, hr, Nat.not_lt.mpr h2]

/-- Witness for C2 at a concrete input: first attempt, budget 3. -/
theorem C2_witness :
    fetchGo 1 3 evNetErr (2 + 1) 0 0 =
      { outcome := (fetchGo 1 3 evNetErr 2 (0 + 1) (0 + 1)).outcome,
        sleeps := 1 * 2 ^ (0 + 1) :: (fetchGo 1 3 evNetErr 2 (0 + 1) (0 + 1)).sleeps,
        reqs := (fetchGo 1 3 evNetErr 2 (0 + 1) (0 + 1)).reqs + 1 } :=
  (C2_network_error_backoff 1 3 2 0 0 evNetErr rfl (by decide) (by norm_num)).1 (by decide)

/-- Invariant behind C3: from any loop state, a world of constant 429
responses whose `Retry-After` parses to `n` makes every remaining attempt
sleep `n * backoff_factor` and increment the counter, until the budget is
spent and the loop falls out to the "API request failed" error. -/
theorem fetchGo_all_429 (backoff : ℚ) (maxRetries : Nat) (events : Nat → HttpEvent)
    (ra : Option String) (body : Nat → List (String × PyVal)) (n : Int)
    (hev : ∀ j, events j = HttpEvent.resp 429 ra (body j))
    (hn : parseRetryAfter ra = some n)
    (hd : 0 ≤ (n : ℚ) * backoff) :
    ∀ fuel retries k, maxRetries ≤ retries + fuel →
      fetchGo backoff maxRetries events fuel retries k =
        { outcome := FetchOutcome.failedAfterRetries,
          sleeps := List.replicate (maxRetries - retries) ((n : ℚ) * backoff),
          reqs := maxRetries - retries } := by
  have hd' : ¬ (n : ℚ) * backoff < 0 := not_lt.mpr hd
  intro fuel
  induction fuel with
  | zero =>
    intro retries k hle
    have h1 : ¬ retries < maxRetries := by omega
    have h2 : maxRetries - retries = 0 := by omega
    simp [fetchGo, h1, h2]
  | succ f ih =>
    intro retries k hle
    by_cases hr : retries < maxRetries
    · have hrec := ih (retries + 1) (k + 1) (by omega)
      have hsub : maxRetries - retries = (maxRetries - (retries + 1)) + 1 := by omega
      simp [fetchGo, hr, hev k, hn, hd', hrec, hsub, List.replicate_succ]
    · have h2 : maxRetries - retries = 0 := by omega
      simp [fetchGo, hr, h2]

/-- C3: a call to `fetch_api_data` in which every request is answered with
a 429 carrying the same `Retry-After` header reads that header (parsing it
to `n`, with `n = 10` when the header is absent), sleeps exactly
`n * backoff_factor` seconds on each such attempt (not the exponential
schedule), increments the attempt counter against the overall budget, and
retries; after `max_retries` such attempts the loop exits and the call
fails. -/
theorem C3_rate_limited_budget (backoff : ℚ) (maxRetries : Nat)
    (events : Nat → HttpEvent) (ra : Option String)
    (body : Nat → List (String × PyVal)) (n : Int)
    (hev : ∀ j, events j = HttpEvent.resp 429 ra (body j))
    (hn : parseRetryAfter ra = some n)
    (hd : 0 ≤ (n : ℚ) * backoff) :
    fetch_api_data backoff maxRetries events =
      { outcome := FetchOutcome.failedAfterRetries,
        sleeps := List.replicate maxRetries ((n : ℚ) * backoff),
        reqs := maxRetries } := by
  have h := fetchGo_all_429 backoff maxRetries events ra body n hev hn hd
    maxRetries 0 0 (by omega)
  simpa using h

/-- Witness for C3 at a concrete input: absent header (default 10),
`backoff_factor = 1`, budget 2. -/
theorem C3_witness :
    fetch_api_data 1 2 ev429noHeader =
      { outcome := FetchOutcome.failedAfterRetries, sleeps := [10, 10], reqs := 2 } := by
  have h := C3_rate_limited_budget 1 2 ev429noHeader none (fun _ => []) 10
    (fun _ => rfl) rfl (by norm_num)
  rw [h]
  norm_num [List.replicate]

/-- C1 (amended): a response whose status is neither 200 nor 429 is NOT
fatal.  If the status is in 400–599, `raise_for_status` raises an
`HTTPError`, which the loop's own `except RequestException` clause catches:
the attempt counter increments and, if attempts remain, the function sleeps
`backoff_factor * 2 ^ (retries + 1)` and re-issues the request (the same
path as a network error), raising "Max retries exceeded" once the budget is
spent.  If the status is outside 400–599 (e.g. 204 or 302),
`raise_for_status` raises nothing and the request is re-issued immediately,
with no sleep and no counter increment. -/
theorem C1_non200_not_fatal (backoff : ℚ) (maxRetries fuel retries k : Nat)
    (events : Nat → HttpEvent) (s : Nat) (ra : Option String)
    (body : List (String × PyVal))
    (hev : events k = HttpEvent.resp s ra body)
    (h200 : s ≠ 200) (h429 : s ≠ 429)
    (hr : retries < maxRetries) (hb : 0 ≤ backoff) :
    (400 ≤ s ∧ s < 600 →
      (retries + 1 < maxRetries →
        fetchGo backoff maxRetries events (fuel + 1) retries k =
          { outcome := (fetchGo backoff maxRetries events fuel (retries + 1) (k + 1)).outcome,
            sleeps := backoff * 2 ^ (retries + 1) ::
              (fetchGo backoff maxRetries events fuel (retries + 1) (k + 1)).sleeps,
            reqs := (fetchGo backoff maxRetries events fuel (retries + 1) (k + 1)).reqs + 1 }) ∧
      (maxRetries ≤ retries + 1 →
        fetchGo backoff maxRetries events (fuel + 1) retries k =
          { outcome := FetchOutcome.maxRetriesExceeded, sleeps := [], reqs := 1 })) ∧
    (¬ (400 ≤ s ∧ s < 600) →
      fetchGo backoff maxRetries events (fuel + 1) retries k =
        { outcome := (fetchGo backoff maxRetries events fuel retries (k + 1)).outcome,
          sleeps := (fetchGo backoff maxRetries events fuel retries (k + 1)).sleeps,
          reqs := (fetchGo backoff maxRetries events fuel retries (k + 1)).reqs + 1 }) := by
  have hd : ¬ backoff * 2 ^ (retries + 1) < 0 :=
    not_lt.mpr (mul_nonneg hb (by positivity))
  refine ⟨fun h4 => ⟨fun h2 => ?_, fun h2 => ?_⟩, fun h4 => ?_⟩
  · simp [fetchGo, hev, hr, h200, h429, h4, h2, hd]
  · simp [fetchGo, hev, hr, h200, h429, h4, Nat.not_lt.mpr h2]
  · simp [fetchGo, hev, hr, h200, h429, h4]

/-- Witness for the amended C1 at a concrete input: a 500 response on the
first attempt with budget 3 sleeps `backoff * 2^1` and retries. -/
theorem C1_witness :
    fetchGo 1 3 ev500then200 (2 + 1) 0 0 =
      { outcome := (fetchGo 1 3 ev500then200 2 (0 + 1) (0 + 1)).outcome,
        sleeps := 1 * 2 ^ (0 + 1) :: (fetchGo 1 3 ev500then200 2 (0 + 1) (0 + 1)).sleeps,
        reqs := (fetchGo 1 3 ev500then200 2 (0 + 1) (0 + 1)).reqs + 1 } :=
  ((C1_non200_not_fatal 1 3 2 0 0 ev500then200 500 none [] rfl (by decide) (by decide)
    (by decide) (by norm_num)).1 (by decide)).1 (by decide)

/-- Counterexample to C1 as stated: with `backoff_factor = 1`,
`max_retries = 3` and a world whose first reply is a 500 and whose second is
a 200, the claim would require the call to make exactly one request and
never sleep (the 500 being fatal); in fact the code sleeps once
(2 seconds) and re-issues the request, which then succeeds. -/
theorem C1_counterexample :
    ¬ ((fetch_api_data 1 3 ev500then200).reqs = 1 ∧
       (fetch_api_data 1 3 ev500then200).sleeps = []) := by
  have hd : ¬ (1 : ℚ) * 2 ^ (0 + 1) < 0 := by norm_num
  have h : fetch_api_data 1 3 ev500then200 =
      { outcome := (fetchGo 1 3 ev500then200 2 1 1).outcome,
        sleeps := 1 * 2 ^ (0 + 1) :: (fetchGo 1 3 ev500then200 2 1 1).sleeps,
        reqs := (fetchGo 1 3 ev500then200 2 1 1).reqs + 1 } := by
    unfold fetch_api_data
    simp [fetchGo, ev500then200, hd]
  have h2 : fetchGo 1 3 ev500then200 2 1 1 =
      { outcome := FetchOutcome.ok [], sleeps := [], reqs := 1 } := by
    simp [fetchGo, ev500then200]
  rintro ⟨h1, -⟩
  rw [h, h2] at h1
  simp at h1

/-- C9 (the claim's intent is right, the code is wrong): with
`max_retries = 3` and a server that answers every request with HTTP 204 —
a status outside {200, 429} and outside 400–599, so `raise_for_status`
raises nothing and `retries` is never incremented — the retry loop of
`fetch_api_data` never terminates: no finite number of loop-body
executions finishes it. -/
theorem C9_nontermination_on_204 : ¬ FetchTerminates 1 3 ev204 := by
  have aux : ∀ f k, fetchGo 1 3 ev204 f 0 k =
      { outcome := FetchOutcome.outOfFuel, sleeps := [], reqs := f } := by
    intro f
    induction f with
    | zero => intro k; simp [fetchGo]
    | succ f ih => intro k; simp [fetchGo, ev204, ih (k + 1)]
  rintro ⟨f, hf⟩
  exact hf (by rw [aux f 0])


/-- The first `for` loop finds no missing key exactly when every required
key is present. -/
theorem firstMissingKey_eq_none_iff (keys : List String) (d : List (String × PyVal)) :
    firstMissingKey keys d = none ↔ ∀ k ∈ keys, (d.lookup k).isSome := by
  induction keys with
  | nil => simp [firstMissingKey]
  | cons key rest ih =>
    rw [firstMissingKey]
    by_cases h : (d.lookup key).isSome
    · rw [if_pos h, ih]
      constructor
      · intro hall k hk
        rcases List.mem_cons.mp hk with heq | hk
        · subst heq; exact h
        · exact hall k hk
      · intro hall k hk
        exact hall k (List.mem_cons_of_mem _ hk)
    · rw [if_neg h]
      constructor
      · intro hsome
        exact absurd hsome (by simp)
      · intro hall
        exact absurd (hall key (List.mem_cons_self key rest)) h

/-- The second `for` loop succeeds exactly when every required variable's
membership test is positive. -/
theorem checkVars_eq_ok_iff (vars : List String) (daily : PyVal) :
    checkVars vars daily = Except.ok () ↔
      ∀ v ∈ vars, pyContains daily v = some true := by
  induction vars with
  | nil => simp [checkVars]
  | cons v rest ih =>
    rw [checkVars]
    cases h : pyContains daily v with
    | none =>
      constructor
      · intro hok
        exact absurd hok (by simp)
      · intro hall
        exact absurd (h.symm.trans (hall v (List.mem_cons_self v rest))) (by simp)
    | some b =>
      cases b
      · constructor
        · intro hok
          exact absurd hok (by simp)
        · intro hall
          exact absurd (h.symm.trans (hall v (List.mem_cons_self v rest))) (by simp)
      · rw [ih]
        constructor
        · intro hall k hk
          rcases List.mem_cons.mp hk with heq | hk
          · subst heq; exact h
          · exact hall k hk
        · intro hall k hk
          exact hall k (List.mem_cons_of_mem _ hk)

/-- When the second `for` loop has a first missing variable, it raises the
`ValueError` naming exactly that variable. -/
theorem checkVars_first_failing (vars : List String) (daily : PyVal) (v : String)
    (h : firstFailingVar vars daily = some v) :
    checkVars vars daily =
      Except.error (PyErr.valueError
        ("Invalid API response: missing variable " ++ v ++ " in daily data")) := by
  induction vars with
  | nil => simp [firstFailingVar] at h
  | cons w rest ih =>
    rw [firstFailingVar] at h
    rw [checkVars]
    cases hc : pyContains daily w with
    | none => rw [hc] at h; exact absurd h (by simp)
    | some b =>
      rw [hc] at h
      cases b
      · simp only [Option.some.injEq] at h
        subst h
        rfl
      · exact ih h

/-- C4: `validate_response_schema` succeeds exactly when the five required
top-level keys are present and `response['daily']` contains each of the
three requested variable names plus `time` (nothing about the values —
arrays may be empty, no type or length checks); on a missing top-level key
it raises on the first one in checking order, naming it, and likewise for
the first missing daily variable.  The model is a pure function of
`response`, so the check cannot modify it. -/
theorem C4_validate_schema (response : List (String × PyVal)) :
    (validate_response_schema response = Except.ok () ↔
      ((∀ key ∈ required_keys, (response.lookup key).isSome) ∧
        ∃ daily, response.lookup "daily" = some daily ∧
          ∀ v ∈ VARIABLES ++ ["time"], pyContains daily v = some true)) ∧
    (∀ key, firstMissingKey required_keys response = some key →
      validate_response_schema response =
        Except.error (PyErr.valueError ("Invalid API response: missing key " ++ key))) ∧
    (∀ daily v, firstMissingKey required_keys response = none →
      response.lookup "daily" = some daily →
      firstFailingVar (VARIABLES ++ ["time"]) daily = some v →
      validate_response_schema response =
        Except.error (PyErr.valueError
          ("Invalid API response: missing variable " ++ v ++ " in daily data"))) := by
  refine ⟨?_, fun key h => ?_, fun daily v h0 hd hv => ?_⟩
  · cases hfm : firstMissingKey required_keys response with
    | some key =>
      have hnall : ¬ ∀ k ∈ required_keys, (response.lookup k).isSome := by
        rw [← firstMissingKey_eq_none_iff]
        simp [hfm]
      have hL : validate_response_schema response =
          Except.error (PyErr.valueError ("Invalid API response: missing key " ++ key)) := by
        simp [validate_response_schema, hfm]
      rw [hL]
      constructor
      · intro hok
        exact absurd hok (by simp)
      · rintro ⟨hall, -⟩
        exact absurd hall hnall
    | none =>
      have hall : ∀ k ∈ required_keys, (response.lookup k).isSome :=
        (firstMissingKey_eq_none_iff _ _).mp hfm
      have hdsome : (response.lookup "daily").isSome :=
        hall "daily" (by simp [required_keys])
      obtain ⟨daily, hdaily⟩ := Option.isSome_iff_exists.mp hdsome
      have hL : validate_response_schema response =
          checkVars (VARIABLES ++ ["time"]) daily := by
        simp [validate_response_schema, hfm, hdaily]
      rw [hL, checkVars_eq_ok_iff]
      constructor
      · intro h
        exact ⟨hall, daily, hdaily, h⟩
      · rintro ⟨-, d, hd, h⟩
        rw [hdaily] at hd
        injection hd with hd2
        subst hd2
        exact h
  · simp [validate_response_schema, h]
  · have hL : validate_response_schema response =
        checkVars (VARIABLES ++ ["time"]) daily := by
      simp [validate_response_schema, h0, hd]
    rw [hL]
    exact checkVars_first_failing _ _ _ hv

/-- Witness for C4 at concrete inputs: a response missing `daily_units`
fails naming that key; a schema-complete response with empty arrays
passes. -/
theorem C4_witness :
    validate_response_schema respMissingUnits =
      Except.error (PyErr.valueError "Invalid API response: missing key daily_units") ∧
    validate_response_schema goodResponse = Except.ok () := by
  constructor
  · have h := (C4_validate_schema respMissingUnits).2.1 "daily_units" (by decide)
    rw [h]
    rfl
  · exact (C4_validate_schema goodResponse).1.mpr
      ⟨by decide,
        PyVal.dict
          [("time", PyVal.arr []), ("temperature_2m_mean", PyVal.arr []),
           ("precipitation_sum", PyVal.arr []), ("wind_speed_10m_max", PyVal.arr [])],
        rfl, by decide⟩


theorem C5_two_rows_same_month (response daily : List (String × PyVal))
    (t1 t2 city : String) (y m d1 d2 : Nat) (a b p q u v : ℚ)
    (hd : response.lookup "daily" = some (PyVal.dict daily))
    (ht : daily.lookup "time" = some (PyVal.arr [PyVal.str t1, PyVal.str t2]))
    (ha : daily.lookup "temperature_2m_mean" = some (PyVal.arr [PyVal.num a, PyVal.num b]))
    (hp : daily.lookup "precipitation_sum" = some (PyVal.arr [PyVal.num p, PyVal.num q]))
    (hw : daily.lookup "wind_speed_10m_max" = some (PyVal.arr [PyVal.num u, PyVal.num v]))
    (h1 : parseDate t1 = some { year := y, month := m, day := d1 })
    (h2 : parseDate t2 = some { year := y, month := m, day := d2 }) :
    process_daily_data response city =
      some [{ year := y, month := m, temperature := (a + b) / 2,
              precipitation := p + q, wind_speed := max u v, city := city }] := by
  simp only [process_daily_data, hd, ht, ha, hp, hw, asStrList, asNumList, List.foldr]
  simp only [parseDates, h1, h2]
  simp only [List.length_cons, List.length_nil, and_self, if_pos]
  simp only [zipRows, resampleMonthly, List.map_cons, List.map_nil]
  rw [List.dedup_cons_of_mem (by simp), List.dedup_cons_of_not_mem (by simp),
    List.dedup_nil]
  simp only [List.insertionSort, List.orderedInsert, List.map_cons, List.map_nil,
    List.filter, decide_eq_true_eq]
  simp only [meanQ, maxQ, List.sum_cons, List.sum_nil, List.length_cons,
    List.length_nil, List.foldl]
  norm_num

/-- Witness for C5: the end-to-end Madrid scenario (temps 10.0/12.0,
precipitation 5.0/0.0, wind 3.0/4.0 on two January 2010 days) yields one
monthly row: temperature 11.0, precipitation 5.0, wind speed 4.0, city
"Madrid". -/
theorem C5_witness :
    process_daily_data madridResponse "Madrid" =
      some [{ year := 2010, month := 1, temperature := 11,
              precipitation := 5, wind_speed := 4, city := "Madrid" }] := by
  have h := C5_two_rows_same_month madridResponse
    [("time", PyVal.arr [PyVal.str "2010-01-01", PyVal.str "2010-01-02"]),
     ("temperature_2m_mean", PyVal.arr [PyVal.num 10, PyVal.num 12]),
     ("precipitation_sum", PyVal.arr [PyVal.num 5, PyVal.num 0]),
     ("wind_speed_10m_max", PyVal.arr [PyVal.num 3, PyVal.num 4])]
    "2010-01-01" "2010-01-02" "Madrid" 2010 1 1 2 10 12 5 0 3 4
    rfl rfl rfl rfl rfl (by decide) (by decide)
  rw [h]
  norm_num

/-- C6: a city name absent from the `COORDINATES` registry makes
`get_data_meteo_api` raise the "not found in COORDINATES" `ValueError`
without issuing any HTTP request. -/
theorem C6_unknown_city (events : Nat → HttpEvent) (city : String)
    (h : COORDINATES.lookup city = none) :
    get_data_meteo_api events city =
      (PipeResult.err (PyErr.valueError ("City " ++ city ++ " not found in COORDINATES")),
        0) := by
  simp [get_data_meteo_api, h]

/-- Witness for C6 at a concrete input: "Paris" is not in the registry. -/
theorem C6_witness :
    get_data_meteo_api evNetErr "Paris" =
      (PipeResult.err (PyErr.valueError "City Paris not found in COORDINATES"), 0) := by
  have h := C6_unknown_city evNetErr "Paris" rfl
  rw [h]
  rfl

/-- The driver invariant behind C7: when every remaining city's pipeline
raises, the loop keeps whatever is already accumulated and, at the end,
`pd.concat` raises "No objects to concatenate" exactly when nothing was
accumulated. -/
theorem mainLoop_all_err (w : Nat → Nat → HttpEvent) (l : List (Nat × String))
    (acc : List (List MonthlyRow))
    (h : ∀ p ∈ l, isErr (runCity (w p.1) p.2) = true) :
    mainLoop w l acc =
      if acc.isEmpty then PipeResult.err (PyErr.valueError "No objects to concatenate")
      else PipeResult.ok acc.flatten := by
  induction l generalizing acc with
  | nil => rfl
  | cons hd tl ih =>
    obtain ⟨i, c⟩ := hd
    have hh := h (i, c) (List.mem_cons_self _ _)
    cases hrc : runCity (w i) c with
    | ok rows => rw [hrc] at hh; simp [isErr] at hh
    | hang => rw [hrc] at hh; simp [isErr] at hh
    | err e =>
      rw [mainLoop, hrc]
      exact ih acc (fun p hp => h p (List.mem_cons_of_mem _ hp))

/-- C7: the driver catches any error a single city's pipeline raises and
continues with the next city, keeping the partial results accumulated so
far (a success appends that city's monthly table); and when every city in
the registry fails, the final concatenation itself raises the
"No objects to concatenate" `ValueError` instead of producing an empty
chart. -/
theorem C7_driver_error_policy (w : Nat → Nat → HttpEvent) :
    (∀ i c rest acc e, runCity (w i) c = PipeResult.err e →
      mainLoop w ((i, c) :: rest) acc = mainLoop w rest acc) ∧
    (∀ i c rest acc rows, runCity (w i) c = PipeResult.ok rows →
      mainLoop w ((i, c) :: rest) acc = mainLoop w rest (acc ++ [rows])) ∧
    ((∀ p ∈ (COORDINATES.map Prod.fst).enum, isErr (runCity (w p.1) p.2) = true) →
      main_driver w = PipeResult.err (PyErr.valueError "No objects to concatenate")) := by
  refine ⟨fun i c rest acc e h => ?_, fun i c rest acc rows h => ?_, fun h => ?_⟩
  · rw [mainLoop, h]
  · rw [mainLoop, h]
  · rw [main_driver, mainLoop_all_err w _ [] h]
    rfl

/-- Witness for C7 at a concrete world: when every request of every city
fails at the network level, each city's pipeline raises "Max retries (3)
exceeded.", and the driver's final concatenation raises the
"No objects to concatenate" `ValueError`. -/
theorem C7_witness :
    main_driver wAllNetErr = PipeResult.err (PyErr.valueError "No objects to concatenate") := by
  apply (C7_driver_error_policy wAllNetErr).2.2
  have hfull : fetch_api_data 1 3 evNetErr =
      { outcome := FetchOutcome.maxRetriesExceeded, sleeps := [2, 4], reqs := 3 } := by
    unfold fetch_api_data
    norm_num [fetchGo, evNetErr]
  have hrun : ∀ city, (COORDINATES.lookup city).isSome = true →
      runCity evNetErr city = PipeResult.err (PyErr.exception "Max retries (3) exceeded.") := by
    intro city hc
    obtain ⟨coords, hcs⟩ := Option.isSome_iff_exists.mp hc
    unfold runCity get_data_meteo_api
    rw [hcs, hfull]
    rfl
  intro p hp
  have henum : (COORDINATES.map Prod.fst).enum = [(0, "Madrid"), (1, "London"), (2, "Rio")] := rfl
  rw [henum] at hp
  simp only [List.mem_cons, List.not_mem_nil, or_false] at hp
  rcases hp with rfl | rfl | rfl
  · show isErr (runCity evNetErr "Madrid") = true
    rw [hrun "Madrid" rfl]; rfl
  · show isErr (runCity evNetErr "London") = true
    rw [hrun "London" rfl]; rfl
  · show isErr (runCity evNetErr "Rio") = true
    rw [hrun "Rio" rfl]; rfl
